import Mathlib

/-!
Verification development for an LLM-backed task-execution agent
(repository: Tds-project-1).

Part 1 models the code generation & validation retry loop described in the
design document (its implementation is not among the provided source files,
so the loop is modelled from the spec's state-machine description).

Part 2 is a shallow embedding of `main.py`: path joining under the `/data`
root, the task classifier, the `/run` dispatch and the `/read` endpoint.
-/

/- ===================== Part 1: generation & validation loop ===================== -/

/-- Modelled from the spec: the fixed attempt budget of the code generation
and validation loop ("bounded by a fixed attempt budget", "maxAttempts (fixed at 3)"). -/
def maxAttempts : Nat := 3

/-- Modelled from the spec: ExecutionResult =
exit code, stdout, stderr and a timed-out flag, produced once per attempt
by the execution sandbox. -/
structure ExecutionResult where
  exitCode : Int
  stdout : String
  stderr : String
  timedOut : Bool
deriving Repr, DecidableEq

/-- Modelled from the spec: the raw object parsed from the generated code's
stdout, before schema validation; either required field may be absent. -/
structure RawOutput where
  statusField : Option String
  resultField : Option String
deriving Repr, DecidableEq

/-- Modelled from the spec: ValidatedOutput = a structured object with exactly
two required fields, a status in the set of "success" and "failure", and a
free-text result string. -/
structure ValidatedOutput where
  status : String
  result : String
deriving Repr, DecidableEq

/-- Modelled from the spec: the filesystem's set of temporary generated-code
artifacts, as the list of artifact paths currently present. -/
abbrev ArtifactFS : Type := List String

/-- Modelled from the spec: the `Executing` state's bracket — persist the code
to a freshly created temporary location, invoke the execution sandbox (whose
outcome is a parameter: a normal `ExecutionResult`, or an exception modelled
as `Except.error`), then unconditionally remove the temporary artifact on
every exit path before leaving the state. -/
def executeWithCleanup (sandbox : String → Except String ExecutionResult)
    (tmpPath code : String) (fs : ArtifactFS) :
    Except String ExecutionResult × ArtifactFS :=
  let fsWithArtifact : ArtifactFS := tmpPath :: fs
  let outcome := sandbox code
  (outcome, List.erase fsWithArtifact tmpPath)

/-- Modelled from the spec: the `Validating` state — non-zero exit is a failure
whose error context is "non-zero exit" plus the captured stderr; on exit code
0 the stdout is parsed and checked against the fixed schema (status in the set
of "success" and "failure", result present); parse or schema failure yields an
error context built from the failure text plus stderr. -/
def validateResult (parse : String → Option RawOutput) (r : ExecutionResult) :
    Except String ValidatedOutput :=
  if r.exitCode ≠ 0 then
    .error ("non-zero exit: " ++ r.stderr)
  else
    match parse r.stdout with
    | none => .error ("parse error: " ++ r.stderr)
    | some raw =>
      match raw.statusField, raw.resultField with
      | some s, some res =>
        if s = "success" ∨ s = "failure" then .ok ⟨s, res⟩
        else .error ("validation error: " ++ r.stderr)
      | _, _ => .error ("validation error: " ++ r.stderr)

/-- Modelled from the spec: one attempt = execute (with unconditional artifact
cleanup) then validate; an exception during execution consumes the attempt and
its text becomes the error context. -/
def runAttempt (sandbox : String → Except String ExecutionResult)
    (parse : String → Option RawOutput) (tmpPath code : String)
    (fs : ArtifactFS) : Except String ValidatedOutput × ArtifactFS :=
  match executeWithCleanup sandbox tmpPath code fs with
  | (.error exc, fs') => (.error exc, fs')
  | (.ok r, fs') => (validateResult parse r, fs')

/-- Modelled from the spec: loop termination — `Succeeded` with the parsed
output, or `Exhausted` failing with TaskExecutionFailed carrying the last
error context; both record how many attempts were consumed. -/
inductive LoopOutcome where
  | succeeded (out : ValidatedOutput) (attempts : Nat)
  | failed (lastErrorContext : String) (attempts : Nat)
deriving Repr, DecidableEq

/-- Modelled from the spec: the retry state machine. `gen` is the LLM code
generation (a function of the attempt number and the optional prior error
context). On failure, if attempt + 1 < maxAttempts the loop increments the
attempt and returns to `Generating` with the new error context replacing the
previous one; otherwise it transitions to `Exhausted` carrying the last error
context. The filesystem of temporary artifacts is threaded through. -/
def runGeneratedTask (gen : Nat → Option String → String)
    (sandbox : String → Except String ExecutionResult)
    (parse : String → Option RawOutput) (tmpPath : String)
    (attempt : Nat) (errorContext : Option String) (fs : ArtifactFS) :
    LoopOutcome × ArtifactFS :=
  match runAttempt sandbox parse tmpPath (gen attempt errorContext) fs with
  | (.ok out, fs') => (.succeeded out (attempt + 1), fs')
  | (.error e, fs') =>
    if _h : attempt + 1 < maxAttempts then
      runGeneratedTask gen sandbox parse tmpPath (attempt + 1) (some e) fs'
    else
      (.failed e (attempt + 1), fs')
termination_by maxAttempts - attempt
decreasing_by omega

/-- Modelled from the spec: the chain of error contexts — attempt n's context
is derived only from attempt (n-1)'s outcome, each new context replacing the
previous one. -/
def ctxChain (err : Nat → Option String → String) : Nat → Option String
  | 0 => none
  | n + 1 => some (err n (ctxChain err n))

/- ===================== Part 2: embedding of main.py ===================== -/

/-- Python's `str.startswith`. -/
def py_startswith (s t : String) : Bool := List.isPrefixOf t.data s.data

/-- Python's `str.endswith`. -/
def py_endswith (s t : String) : Bool := List.isSuffixOf t.data s.data

/-- Python's `str.strip()` with no argument: remove leading and trailing
whitespace. -/
def pyStrip (s : String) : String :=
  ⟨List.rdropWhile Char.isWhitespace (List.dropWhile Char.isWhitespace s.data)⟩

/-- Python's `str.lower()`: lowercase each character (the task keys
involved here are ASCII). -/
def pyLower (s : String) : String := ⟨s.data.map Char.toLower⟩

/-- Python's `os.path.join(a, b)` on posix, as used in main.py: an absolute
second component discards the first; otherwise the components are joined,
inserting a "/" separator unless the first is empty or already ends in "/". -/
def ospathjoin (a b : String) : String :=
  if py_startswith b "/" then b
  else if a == "" || py_endswith a "/" then a ++ b
  else a ++ "/" ++ b

/-- The path opened by the `/read` endpoint (`read_file` in main.py, line
368): the caller's `path` joined under the restricted root `/data`. -/
def read_file_path (path : String) : String := ospathjoin "/data" path

/-- The path opened for writing by `write_output_file` in main.py (line 38):
the caller's output `filepath` joined under the restricted root `/data`. -/
def write_output_path (filepath : String) : String := ospathjoin "/data" filepath

/-- A path lies syntactically under the restricted root: it is `/data` itself
or begins with `/data/`. -/
def underDataRoot (p : String) : Bool :=
  p == "/data" || List.isPrefixOf "/data/".data p.data

/-- The opening of the classifier prompt f-string in
`parse_task_description` (main.py lines 87–89), up to the catalog. -/
def promptIntro : String :=
"\nYou are an automation assistant. Given the following task description, determine the canonical task identifier from the list below:\n\n"

/-- Catalog line for a1 in the classifier prompt (main.py line 90). -/
def promptLineA1 : String := "- a1: Run the datagen.py script to generate data files.\n"

/-- Catalog line for a2 in the classifier prompt (main.py line 91). -/
def promptLineA2 : String := "- a2: Format /data/format.md using Prettier.\n"

/-- Catalog line for a3 in the classifier prompt (main.py line 92). -/
def promptLineA3 : String :=
"- a3: Count the number of Wednesdays in /data/dates.txt and write the number to /data/dates-wednesdays.txt.\n"

/-- Catalog line for a4 in the classifier prompt (main.py line 93). -/
def promptLineA4 : String :=
"- a4: Sort the contacts in /data/contacts.json by last_name then first_name.\n"

/-- Catalog line for a5 in the classifier prompt (main.py line 94). -/
def promptLineA5 : String :=
"- a5: Write the first line of the 10 most recent .log files in /data/logs/ to /data/logs-recent.txt.\n"

/-- Catalog line for a6 in the classifier prompt (main.py line 95). -/
def promptLineA6 : String :=
"- a6: Create an index for Markdown files in /data/docs/ mapping each filename to its first H1.\n"

/-- Catalog line for a7 in the classifier prompt (main.py line 96; the
source file's literal mojibake bytes are reproduced). -/
def promptLineA7 : String :=
"- a7: Extract the senderâ€™s email from /data/email.txt.\n"

/-- Catalog line for a8 in the classifier prompt (main.py line 97). -/
def promptLineA8 : String :=
"- a8: Extract the credit card number from /data/credit-card.png.\n"

/-- Catalog line for a9 in the classifier prompt (main.py line 98). -/
def promptLineA9 : String :=
"- a9: Find the most similar pair of comments in /data/comments.txt.\n"

/-- Catalog line for a10 in the classifier prompt (main.py line 99). -/
def promptLineA10 : String :=
"- a10: Calculate total sales of \"Gold\" tickets from /data/ticket-sales.db.\n"

/-- The closing of the classifier prompt f-string (main.py lines 100–103),
after the catalog and before the interpolated task description. -/
def promptOutro : String :=
"\nReturn only the canonical task key (for example, \"a3\") if applicable, or \"unknown\" if none match.\n\nTask description: \""

/-- The literal part of the classifier prompt f-string that precedes the
interpolated task description, assembled from its lines. -/
def classifierPromptHead : String :=
  promptIntro ++ promptLineA1 ++ promptLineA2 ++ promptLineA3 ++ promptLineA4 ++
    promptLineA5 ++ promptLineA6 ++ promptLineA7 ++ promptLineA8 ++ promptLineA9 ++
    promptLineA10 ++ promptOutro

/-- The literal part of the classifier prompt f-string that follows the
interpolated task description. -/
def classifierPromptTail : String := "\"\n"

/-- The classifier prompt built by `parse_task_description`: the catalog
text with the task description interpolated. -/
def classifier_prompt (task_desc : String) : String :=
  classifierPromptHead ++ task_desc ++ classifierPromptTail

/-- The full prompt text `query_llm` (main.py lines 65–71) wraps around its
`prompt` argument and optional file content before sending it to the LLM
backend (Python's falsy test makes an empty file content fall back to the
default text). -/
def fullPromptText (prompt : String) (file_content : Option String) : String :=
  let dataPart : String :=
    match file_content with
    | some s => if s = "" then "No additional data provided" else s
    | none => "No additional data provided"
  "Task: " ++ prompt ++ "\n\nData:\n" ++ dataPart ++
    "\n\nProcess this task and return ONLY the final output, without any extra explanation."

/-- `query_llm` from main.py: build the full prompt, send it to the LLM
backend (modelled as the function `llm` from full prompt text to raw
response content) and return the response stripped of surrounding
whitespace. -/
def query_llm (llm : String → String) (prompt : String)
    (file_content : Option String) : String :=
  pyStrip (llm (fullPromptText prompt file_content))

/-- `parse_task_description` from main.py (lines 83–107): one `query_llm`
call with the catalog prompt and no file content; the response is stripped
and lowercased to produce the task key. -/
def parse_task_description (llm : String → String) (task_desc : String) : String :=
  pyLower (pyStrip (query_llm llm (classifier_prompt task_desc) none))

/-- `query_llm`, instrumented with a counter of LLM backend calls: the
returned counter is the input counter plus the single call made. -/
def query_llm_counted (llm : String → String) (prompt : String)
    (file_content : Option String) (calls : Nat) : String × Nat :=
  (query_llm llm prompt file_content, calls + 1)

/-- `parse_task_description`, instrumented with the LLM call counter. -/
def parse_task_description_counted (llm : String → String) (task_desc : String)
    (calls : Nat) : String × Nat :=
  match query_llm_counted llm (classifier_prompt task_desc) none calls with
  | (response, calls') => (pyLower (pyStrip response), calls')

/-- The key set of `TASK_MAP` (main.py lines 333–350), in source order. -/
def TASK_MAP_keys : List String :=
  ["a1", "a2", "a3", "a4", "a5", "a6", "a7", "a8", "a9", "a10",
   "b5", "b6", "b7", "b8", "b9", "b10"]

/-- The catalog of task keys enumerated in the classifier prompt
(`- a1:` through `- a10:` in main.py lines 90–99). -/
def advertisedTaskKeys : List String :=
  ["a1", "a2", "a3", "a4", "a5", "a6", "a7", "a8", "a9", "a10"]

/-- An HTTP-level outcome of an endpoint: a JSON-like success body (a list
of string field/value pairs) or an HTTPException with a status code and a
detail string. -/
inductive HttpResponse where
  | ok (body : List (String × String))
  | httpError (statusCode : Nat) (detail : String)
deriving Repr, DecidableEq

/-- The `/run` endpoint `run_task` from main.py (lines 352–364): strip the
task text, classify it to a task key, reject keys outside `TASK_MAP` with a
400 error naming the key; otherwise call the handler — `handlerCall`
models `TASK_MAP[task_key]()`, a raised exception being `Except.error` —
and turn a normal return into a success payload, an exception into a 500
error carrying the exception text. -/
def run_task (handlerCall : String → Except String String)
    (llm : String → String) (task : String) : HttpResponse :=
  let task_description := pyStrip task
  let task_key := parse_task_description llm task_description
  if TASK_MAP_keys.contains task_key then
    match handlerCall task_key with
    | .ok result_message => .ok [("status", "success"), ("message", result_message)]
    | .error e => .httpError 500 e
  else
    .httpError 400 ("Unknown or unmapped task identifier: " ++ task_key)

/-- The `/read` endpoint from main.py (lines 366–376): join the caller's
path under `/data`; 404 if the joined path does not exist; otherwise open
and read it as UTF-8 text — `readUtf8` models `open(..., encoding="utf-8")`
followed by `read()`, a raised exception (e.g. UnicodeDecodeError or
IsADirectoryError) being `Except.error` — returning the content on success
and a 500 error carrying the exception text otherwise. -/
def read_file (pathExists : String → Bool)
    (readUtf8 : String → Except String String) (path : String) : HttpResponse :=
  let file_path := ospathjoin "/data" path
  if pathExists file_path then
    match readUtf8 file_path with
    | .ok content => .ok [("status", "success"), ("content", content)]
    | .error e => .httpError 500 e
  else
    .httpError 404 "File not found"

/- ===================== Theorems ===================== -/

theorem maxAttempts_eq : maxAttempts = 3 := rfl

/-- The cleanup bracket of one attempt leaves the artifact filesystem exactly
as it found it, whatever the sandbox outcome. -/
theorem runAttempt_fs (sandbox : String → Except String ExecutionResult)
    (parse : String → Option RawOutput) (tmpPath code : String) (fs : ArtifactFS) :
    (runAttempt sandbox parse tmpPath code fs).2 = fs := by
  unfold runAttempt executeWithCleanup
  rcases sandbox code with exc | r <;> simp

/-- Unfolding step: a successful attempt ends the loop. -/
theorem runGeneratedTask_step_ok (gen : Nat → Option String → String)
    (sandbox : String → Except String ExecutionResult)
    (parse : String → Option RawOutput) (tmpPath : String)
    (attempt : Nat) (ctx : Option String) (fs : ArtifactFS)
    (out : ValidatedOutput) (fs' : ArtifactFS)
    (hp : runAttempt sandbox parse tmpPath (gen attempt ctx) fs = (.ok out, fs')) :
    runGeneratedTask gen sandbox parse tmpPath attempt ctx fs =
      (.succeeded out (attempt + 1), fs') := by
  rw [runGeneratedTask, hp]

/-- Unfolding step: a failed attempt below the budget retries with the new
error context. -/
theorem runGeneratedTask_step_retry (gen : Nat → Option String → String)
    (sandbox : String → Except String ExecutionResult)
    (parse : String → Option RawOutput) (tmpPath : String)
    (attempt : Nat) (ctx : Option String) (fs : ArtifactFS)
    (e : String) (fs' : ArtifactFS)
    (hp : runAttempt sandbox parse tmpPath (gen attempt ctx) fs = (.error e, fs'))
    (hlt : attempt + 1 < maxAttempts) :
    runGeneratedTask gen sandbox parse tmpPath attempt ctx fs =
      runGeneratedTask gen sandbox parse tmpPath (attempt + 1) (some e) fs' := by
  rw [runGeneratedTask, hp]
  exact dif_pos hlt

/-- Unfolding step: a failed attempt at the budget exhausts the loop. -/
theorem runGeneratedTask_step_stop (gen : Nat → Option String → String)
    (sandbox : String → Except String ExecutionResult)
    (parse : String → Option RawOutput) (tmpPath : String)
    (attempt : Nat) (ctx : Option String) (fs : ArtifactFS)
    (e : String) (fs' : ArtifactFS)
    (hp : runAttempt sandbox parse tmpPath (gen attempt ctx) fs = (.error e, fs'))
    (hge : ¬ (attempt + 1 < maxAttempts)) :
    runGeneratedTask gen sandbox parse tmpPath attempt ctx fs =
      (.failed e (attempt + 1), fs') := by
  rw [runGeneratedTask, hp]
  exact dif_neg hge

/-- C1: if every attempt's execution or validation fails, the loop performs
exactly 3 generation attempts and the terminal TaskExecutionFailed outcome
carries only the final attempt's error context (attempt 2's context, which
replaced the earlier ones), not an accumulation. -/
theorem loop_exhausts_three_attempts_last_context
    (gen : Nat → Option String → String)
    (sandbox : String → Except String ExecutionResult)
    (parse : String → Option RawOutput) (tmpPath : String) (fs : ArtifactFS)
    (err : Nat → Option String → String)
    (h : ∀ n ctx fs0, runAttempt sandbox parse tmpPath (gen n ctx) fs0 =
      (.error (err n ctx), fs0)) :
    runGeneratedTask gen sandbox parse tmpPath 0 none fs =
      (.failed (err 2 (some (err 1 (some (err 0 none))))) 3, fs) := by
  rw [runGeneratedTask_step_retry gen sandbox parse tmpPath 0 none fs
    (err 0 none) fs (h 0 none fs) (by decide)]
  rw [runGeneratedTask_step_retry gen sandbox parse tmpPath (0 + 1)
    (some (err 0 none)) fs (err 1 (some (err 0 none))) fs
    (h (0 + 1) (some (err 0 none)) fs) (by decide)]
  rw [runGeneratedTask_step_stop gen sandbox parse tmpPath (0 + 1 + 1)
    (some (err 1 (some (err 0 none)))) fs
    (err 2 (some (err 1 (some (err 0 none))))) fs
    (h (0 + 1 + 1) (some (err 1 (some (err 0 none)))) fs) (by decide)]

/-- Witness for C1: a loop whose every attempt exits non-zero stops after
exactly 3 attempts with the last error context. -/
theorem loop_exhausts_three_attempts_last_context_witness :
    runGeneratedTask (fun _ _ => "code") (fun _ => .ok ⟨1, "", "boom", false⟩)
      (fun _ => none) "/tmp/gen.py" 0 none [] =
      (.failed "non-zero exit: boom" 3, []) := by
  have h : ∀ (n : Nat) (ctx : Option String) (fs0 : ArtifactFS),
      runAttempt (fun _ => .ok ⟨1, "", "boom", false⟩)
        (fun _ => none) "/tmp/gen.py" ((fun _ _ => "code") n ctx) fs0 =
      (.error ((fun _ _ => "non-zero exit: boom") n ctx), fs0) := by
    intro n ctx fs0
    simp [runAttempt, executeWithCleanup, validateResult]
  exact loop_exhausts_three_attempts_last_context (fun _ _ => "code")
    (fun _ => .ok ⟨1, "", "boom", false⟩) (fun _ => none) "/tmp/gen.py" []
    (fun _ _ => "non-zero exit: boom") h

/-- C2: if attempt K's executed code exits 0 and prints a schema-valid object
(status in the set of "success" and "failure", result string present), the
loop terminates successfully at attempt K with that parsed object — even when
the status field is "failure". -/
theorem schema_valid_object_ends_loop_successfully
    (gen : Nat → Option String → String)
    (sandbox : String → Except String ExecutionResult)
    (parse : String → Option RawOutput) (tmpPath : String) (fs : ArtifactFS)
    (err : Nat → Option String → String) (K : Nat) (r : ExecutionResult)
    (s res : String)
    (hK : K < maxAttempts)
    (hfail : ∀ n, n < K → ∀ fs0, runAttempt sandbox parse tmpPath
      (gen n (ctxChain err n)) fs0 = (.error (err n (ctxChain err n)), fs0))
    (hexec : sandbox (gen K (ctxChain err K)) = .ok r)
    (hexit : r.exitCode = 0)
    (hschema : parse r.stdout = some ⟨some s, some res⟩)
    (hs : s = "success" ∨ s = "failure") :
    (runGeneratedTask gen sandbox parse tmpPath 0 none fs).1 =
      .succeeded ⟨s, res⟩ (K + 1) := by
  have hok : ∀ fs0 : ArtifactFS, runAttempt sandbox parse tmpPath
      (gen K (ctxChain err K)) fs0 = (.ok ⟨s, res⟩, fs0) := by
    intro fs0
    unfold runAttempt executeWithCleanup
    rw [hexec]
    simp [validateResult, hexit, hschema, hs]
  have hK3 : K < 3 := hK
  interval_cases K
  · rw [runGeneratedTask_step_ok gen sandbox parse tmpPath 0 none fs
      ⟨s, res⟩ fs (hok fs)]
  · rw [runGeneratedTask_step_retry gen sandbox parse tmpPath 0 none fs
      (err 0 none) fs (hfail 0 (by omega) fs) (by decide)]
    rw [runGeneratedTask_step_ok gen sandbox parse tmpPath (0 + 1)
      (some (err 0 none)) fs ⟨s, res⟩ fs (hok fs)]
  · rw [runGeneratedTask_step_retry gen sandbox parse tmpPath 0 none fs
      (err 0 none) fs (hfail 0 (by omega) fs) (by decide)]
    rw [runGeneratedTask_step_retry gen sandbox parse tmpPath (0 + 1)
      (some (err 0 none)) fs (err 1 (some (err 0 none))) fs
      (hfail 1 (by omega) fs) (by decide)]
    rw [runGeneratedTask_step_ok gen sandbox parse tmpPath (0 + 1 + 1)
      (some (err 1 (some (err 0 none)))) fs ⟨s, res⟩ fs (hok fs)]

/-- Witness for C2: a generated output with status "failure" still ends the
loop successfully, here at the second attempt after one failing attempt. -/
theorem schema_valid_object_ends_loop_successfully_witness :
    (runGeneratedTask (fun n _ => if n = 0 then "bad" else "good")
      (fun c => if c = "bad" then .ok ⟨1, "", "err0", false⟩
                else .ok ⟨0, "out", "", false⟩)
      (fun s0 => if s0 = "out" then some ⟨some "failure", some "no data found"⟩
                 else none)
      "/tmp/gen.py" 0 none []).1 =
      .succeeded ⟨"failure", "no data found"⟩ (1 + 1) := by
  exact schema_valid_object_ends_loop_successfully
    (fun n _ => if n = 0 then "bad" else "good")
    (fun c => if c = "bad" then .ok ⟨1, "", "err0", false⟩
              else .ok ⟨0, "out", "", false⟩)
    (fun s0 => if s0 = "out" then some ⟨some "failure", some "no data found"⟩
               else none)
    "/tmp/gen.py" [] (fun _ _ => "non-zero exit: err0") 1
    ⟨0, "out", "", false⟩ "failure" "no data found" (by decide)
    (by
      intro n hn fs0
      interval_cases n
      simp [runAttempt, executeWithCleanup, validateResult, ctxChain])
    rfl rfl rfl (Or.inr rfl)

/-- C3: the temporary generated-code artifact is deleted before each attempt
ends on every exit path (normal exit, non-zero exit, timeout, or exception
raised during execution — all possible behaviors of `sandbox`), so after any
run of the loop the filesystem holds exactly the artifacts it started with;
in particular, starting from none, zero leftover artifacts remain. -/
theorem temp_artifacts_zero_leftover (gen : Nat → Option String → String)
    (sandbox : String → Except String ExecutionResult)
    (parse : String → Option RawOutput) (tmpPath : String)
    (attempt : Nat) (ctx : Option String) (fs : ArtifactFS) :
    (runGeneratedTask gen sandbox parse tmpPath attempt ctx fs).2 = fs := by
  suffices h : ∀ (n attempt : Nat) (ctx : Option String) (fs : ArtifactFS),
      maxAttempts - attempt ≤ n →
      (runGeneratedTask gen sandbox parse tmpPath attempt ctx fs).2 = fs by
    exact h maxAttempts attempt ctx fs (by omega)
  intro n
  induction n with
  | zero =>
    intro attempt ctx fs hle
    have hge : ¬ (attempt + 1 < maxAttempts) := by omega
    rcases hp : runAttempt sandbox parse tmpPath (gen attempt ctx) fs with ⟨res, fs2⟩
    have hfs : fs2 = fs := by
      have h2 := runAttempt_fs sandbox parse tmpPath (gen attempt ctx) fs
      rw [hp] at h2
      exact h2
    rw [hfs] at hp
    cases res with
    | ok out =>
      rw [runGeneratedTask_step_ok gen sandbox parse tmpPath attempt ctx fs out fs hp]
    | error e =>
      rw [runGeneratedTask_step_stop gen sandbox parse tmpPath attempt ctx fs e fs hp hge]
  | succ n ih =>
    intro attempt ctx fs hle
    rcases hp : runAttempt sandbox parse tmpPath (gen attempt ctx) fs with ⟨res, fs2⟩
    have hfs : fs2 = fs := by
      have h2 := runAttempt_fs sandbox parse tmpPath (gen attempt ctx) fs
      rw [hp] at h2
      exact h2
    rw [hfs] at hp
    cases res with
    | ok out =>
      rw [runGeneratedTask_step_ok gen sandbox parse tmpPath attempt ctx fs out fs hp]
    | error e =>
      by_cases hlt : attempt + 1 < maxAttempts
      · rw [runGeneratedTask_step_retry gen sandbox parse tmpPath attempt ctx fs e fs hp hlt]
        exact ih (attempt + 1) (some e) fs (by omega)
      · rw [runGeneratedTask_step_stop gen sandbox parse tmpPath attempt ctx fs e fs hp hlt]

/-- Stripping leading then trailing whitespace is idempotent (list form). -/
theorem rdrop_drop_idem {α : Type} (p : α → Bool) (l : List α) :
    List.rdropWhile p (List.dropWhile p (List.rdropWhile p (List.dropWhile p l))) =
      List.rdropWhile p (List.dropWhile p l) := by
  have hd : List.dropWhile p (List.rdropWhile p (List.dropWhile p l)) =
      List.rdropWhile p (List.dropWhile p l) := by
    rcases hq : List.rdropWhile p (List.dropWhile p l) with _ | ⟨a, t⟩
    · rfl
    · have hpre : List.rdropWhile p (List.dropWhile p l) <+: List.dropWhile p l :=
        List.rdropWhile_prefix p (List.dropWhile p l)
      rw [hq] at hpre
      have hlen : 0 < (a :: t).length := by simp
      have hlen2 : 0 < (List.dropWhile p l).length :=
        lt_of_lt_of_le hlen hpre.length_le
      have hget : (a :: t)[0] = (List.dropWhile p l)[0] := hpre.getElem hlen
      have hnp : ¬ p ((List.dropWhile p l).get ⟨0, hlen2⟩) :=
        List.dropWhile_get_zero_not p l hlen2
      have hnpa : ¬ p a := by
        have ha : (List.dropWhile p l).get ⟨0, hlen2⟩ = a := by
          rw [List.get_eq_getElem, ← hget]
          simp
        rwa [ha] at hnp
      simp [List.dropWhile_cons, hnpa]
  rw [hd, List.rdropWhile_idempotent]

/-- Python's strip is idempotent. -/
theorem pyStrip_idem (s : String) : pyStrip (pyStrip s) = pyStrip s := by
  unfold pyStrip
  exact congrArg String.mk (rdrop_drop_idem Char.isWhitespace s.data)

/-- C6: the classifier makes exactly one LLM call (the call counter advances
by exactly 1) and the produced task key is exactly the LLM's raw response
with surrounding whitespace stripped and all characters lowercased. -/
theorem classifier_one_call_strip_lower (llm : String → String)
    (task_desc : String) (calls : Nat) :
    parse_task_description_counted llm task_desc calls =
      (pyLower (pyStrip (llm (fullPromptText (classifier_prompt task_desc) none))),
        calls + 1) ∧
    parse_task_description llm task_desc =
      pyLower (pyStrip (llm (fullPromptText (classifier_prompt task_desc) none))) := by
  constructor
  · unfold parse_task_description_counted query_llm_counted query_llm
    show (pyLower (pyStrip (pyStrip
      (llm (fullPromptText (classifier_prompt task_desc) none)))), calls + 1) = _
    rw [pyStrip_idem]
  · unfold parse_task_description query_llm
    rw [pyStrip_idem]

/-- C4 counterexample: an absolute caller path makes `os.path.join` discard
the `/data` root entirely — requesting `/etc/passwd` opens `/etc/passwd`
itself, which does not lie under `/data`, for the read endpoint and the
output-writing helper alike. -/
theorem data_root_escape_counterexample :
    read_file_path "/etc/passwd" = "/etc/passwd" ∧
    write_output_path "/etc/passwd" = "/etc/passwd" ∧
    underDataRoot "/etc/passwd" = false := by
  refine ⟨rfl, rfl, ?_⟩
  decide

/-- C4 amended: the caller's path is joined under `/data` only when it is
relative; then the opened path is `/data/` followed by the caller's path and
lies under the root (syntactically — `..` components are not sandboxed).
An absolute caller path is used verbatim, replacing the root. -/
theorem data_root_join_characterization (p : String) :
    (py_startswith p "/" = false →
      read_file_path p = "/data/" ++ p ∧ write_output_path p = "/data/" ++ p ∧
      underDataRoot (read_file_path p) = true ∧
      underDataRoot (write_output_path p) = true) ∧
    (py_startswith p "/" = true →
      read_file_path p = p ∧ write_output_path p = p) := by
  constructor
  · intro h
    have hjoin : ospathjoin "/data" p = "/data/" ++ p := by
      unfold ospathjoin
      rw [h]
      simp only [Bool.false_eq_true, if_false]
      rw [if_neg (by decide)]
      rfl
    have hunder : underDataRoot ("/data/" ++ p) = true := by
      unfold underDataRoot
      have : List.isPrefixOf "/data/".data ("/data/" ++ p).data = true := by
        rw [String.data_append]
        rw [List.isPrefixOf_iff_prefix]
        exact List.prefix_append _ _
      rw [this]
      simp
    constructor
    · rw [read_file_path, hjoin]
    constructor
    · rw [write_output_path, hjoin]
    constructor
    · rw [read_file_path, hjoin]
      exact hunder
    · rw [write_output_path, hjoin]
      exact hunder
  · intro h
    have hjoin : ospathjoin "/data" p = p := by
      unfold ospathjoin
      rw [h]
      rfl
    exact ⟨hjoin, hjoin⟩

/-- Witness for the amended C4: the relative path "notes.txt" is opened at
"/data/notes.txt", under the root. -/
theorem data_root_join_characterization_witness :
    read_file_path "notes.txt" = "/data/notes.txt" ∧
    underDataRoot (read_file_path "notes.txt") = true := by
  have h := (data_root_join_characterization "notes.txt").1 (by decide)
  exact ⟨h.1.trans rfl, h.2.2.1⟩

/-- Helper: an unknown task key short-circuits `/run` into the 400 error
naming the key. -/
theorem run_task_unknown (handlerCall : String → Except String String)
    (llm : String → String) (task : String)
    (h : parse_task_description llm (pyStrip task) ∉ TASK_MAP_keys) :
    run_task handlerCall llm task =
      .httpError 400 ("Unknown or unmapped task identifier: " ++
        parse_task_description llm (pyStrip task)) := by
  simp [run_task, h]

/-- Helper: a known task key whose handler raises becomes a 500 error with
the exception text. -/
theorem run_task_handler_error (handlerCall : String → Except String String)
    (llm : String → String) (task e : String)
    (hmem : parse_task_description llm (pyStrip task) ∈ TASK_MAP_keys)
    (hcall : handlerCall (parse_task_description llm (pyStrip task)) = .error e) :
    run_task handlerCall llm task = .httpError 500 e := by
  simp [run_task, hmem, hcall]

/-- Helper: a known task key whose handler returns normally becomes the
success payload. -/
theorem run_task_handler_ok (handlerCall : String → Except String String)
    (llm : String → String) (task msg : String)
    (hmem : parse_task_description llm (pyStrip task) ∈ TASK_MAP_keys)
    (hcall : handlerCall (parse_task_description llm (pyStrip task)) = .ok msg) :
    run_task handlerCall llm task =
      .ok [("status", "success"), ("message", msg)] := by
  simp [run_task, hmem, hcall]

/-- C5: a classifier token outside the dispatch table makes `/run` answer
400 naming the token, independently of the handlers (no handler is
invoked); a handler failure on a known token is instead a 500 carrying the
handler's failure text. -/
theorem run_unknown_400_handler_failure_500
    (handlerCall handlerCall2 : String → Except String String)
    (llm : String → String) (task : String) :
    (parse_task_description llm (pyStrip task) ∉ TASK_MAP_keys →
      run_task handlerCall llm task =
        .httpError 400 ("Unknown or unmapped task identifier: " ++
          parse_task_description llm (pyStrip task)) ∧
      run_task handlerCall llm task = run_task handlerCall2 llm task) ∧
    (∀ e, parse_task_description llm (pyStrip task) ∈ TASK_MAP_keys →
      handlerCall (parse_task_description llm (pyStrip task)) = .error e →
      run_task handlerCall llm task = .httpError 500 e) := by
  constructor
  · intro h
    exact ⟨run_task_unknown handlerCall llm task h,
      (run_task_unknown handlerCall llm task h).trans
        (run_task_unknown handlerCall2 llm task h).symm⟩
  · intro e hmem hcall
    exact run_task_handler_error handlerCall llm task e hmem hcall

/-- Witness for C5: an off-catalog classifier response yields the 400 error
naming the normalized token; a known token whose handler raises yields a
500 with the handler's text. -/
theorem run_unknown_400_handler_failure_500_witness :
    run_task (fun _ => .ok "msg") (fun _ => "ZZZ") "do something" =
      .httpError 400 "Unknown or unmapped task identifier: zzz" ∧
    run_task (fun _ => .error "A3 error: boom") (fun _ => "A3 ") "count wednesdays" =
      .httpError 500 "A3 error: boom" := by
  constructor
  · exact (((run_unknown_400_handler_failure_500 (fun _ => .ok "msg")
      (fun _ => .ok "msg") (fun _ => "ZZZ") "do something").1 (by decide)).1).trans rfl
  · exact (run_unknown_400_handler_failure_500 (fun _ => .error "A3 error: boom")
      (fun _ => .error "A3 error: boom") (fun _ => "A3 ") "count wednesdays").2
      "A3 error: boom" (by decide) rfl

/-- C7: a joined path that does not exist gives a 404 with no content; an
existing path readable as UTF-8 gives a success payload with the full
content. -/
theorem read_endpoint_404_absent_success_present (pathExists : String → Bool)
    (readUtf8 : String → Except String String) (p : String) :
    (pathExists (ospathjoin "/data" p) = false →
      read_file pathExists readUtf8 p = .httpError 404 "File not found") ∧
    (∀ c, pathExists (ospathjoin "/data" p) = true →
      readUtf8 (ospathjoin "/data" p) = .ok c →
      read_file pathExists readUtf8 p =
        .ok [("status", "success"), ("content", c)]) := by
  constructor
  · intro h
    simp [read_file, h]
  · intro c h hc
    simp [read_file, h, hc]

/-- Witness for C7: reading an existing UTF-8 file returns its content;
reading a missing one returns 404. -/
theorem read_endpoint_404_absent_success_present_witness :
    read_file (fun q => q == "/data/notes.txt")
      (fun q => if q == "/data/notes.txt" then .ok "hello" else .error "nope")
      "notes.txt" = .ok [("status", "success"), ("content", "hello")] ∧
    read_file (fun q => q == "/data/notes.txt")
      (fun q => if q == "/data/notes.txt" then .ok "hello" else .error "nope")
      "missing.txt" = .httpError 404 "File not found" := by
  constructor
  · exact (read_endpoint_404_absent_success_present (fun q => q == "/data/notes.txt")
      (fun q => if q == "/data/notes.txt" then .ok "hello" else .error "nope")
      "notes.txt").2 "hello" rfl rfl
  · exact (read_endpoint_404_absent_success_present (fun q => q == "/data/notes.txt")
      (fun q => if q == "/data/notes.txt" then .ok "hello" else .error "nope")
      "missing.txt").1 rfl

/-- C10: an existing joined path whose read raises (non-UTF-8 bytes or a
directory) gives a 500 carrying the exception text — neither a 404 nor a
success payload. -/
theorem read_endpoint_unreadable_500 (pathExists : String → Bool)
    (readUtf8 : String → Except String String) (p e : String)
    (hex : pathExists (ospathjoin "/data" p) = true)
    (hrd : readUtf8 (ospathjoin "/data" p) = .error e) :
    read_file pathExists readUtf8 p = .httpError 500 e ∧
    read_file pathExists readUtf8 p ≠ .httpError 404 "File not found" ∧
    ∀ body, read_file pathExists readUtf8 p ≠ .ok body := by
  have h500 : read_file pathExists readUtf8 p = .httpError 500 e := by
    simp [read_file, hex, hrd]
  refine ⟨h500, ?_, ?_⟩
  · rw [h500]
    simp
  · intro body
    rw [h500]
    simp

/-- Witness for C10: a binary file under the root that exists but fails
UTF-8 decoding yields the 500 error with the exception text. -/
theorem read_endpoint_unreadable_500_witness :
    read_file (fun _ => true) (fun _ => .error "UnicodeDecodeError: bad byte")
      "credit-card.png" = .httpError 500 "UnicodeDecodeError: bad byte" := by
  exact (read_endpoint_unreadable_500 (fun _ => true)
    (fun _ => .error "UnicodeDecodeError: bad byte") "credit-card.png"
    "UnicodeDecodeError: bad byte" rfl rfl).1

/-- C8: the empty task description still yields the well-formed classifier
prompt (the template with the empty string interpolated, which mentions the
"unknown" fallback token); classification is deterministic — equal LLM
responses to the same description give equal task keys — and an "unknown"
response for the empty description yields the unresolved 400 outcome. -/
theorem empty_description_prompt_deterministic_unresolved :
    (classifier_prompt "" = classifierPromptHead ++ classifierPromptTail) ∧
    (∃ u v : String, classifier_prompt "" = u ++ "unknown" ++ v) ∧
    (∀ llm1 llm2 : String → String, ∀ d : String,
      llm1 (fullPromptText (classifier_prompt d) none) =
        llm2 (fullPromptText (classifier_prompt d) none) →
      parse_task_description llm1 d = parse_task_description llm2 d) ∧
    (∀ llm : String → String, ∀ handlerCall : String → Except String String,
      llm (fullPromptText (classifier_prompt "") none) = "unknown" →
      run_task handlerCall llm "" =
        .httpError 400 "Unknown or unmapped task identifier: unknown") := by
  refine ⟨?_, ?_, ?_, ?_⟩
  · rw [classifier_prompt, String.append_empty]
  · refine ⟨promptIntro ++ promptLineA1 ++ promptLineA2 ++ promptLineA3 ++
      promptLineA4 ++ promptLineA5 ++ promptLineA6 ++ promptLineA7 ++
      promptLineA8 ++ promptLineA9 ++ promptLineA10 ++
      "\nReturn only the canonical task key (for example, \"a3\") if applicable, or \"",
      "\" if none match.\n\nTask description: \"" ++ classifierPromptTail, ?_⟩
    have houtro : promptOutro =
        "\nReturn only the canonical task key (for example, \"a3\") if applicable, or \"" ++
          "unknown" ++ "\" if none match.\n\nTask description: \"" := rfl
    rw [classifier_prompt, classifierPromptHead, String.append_empty, houtro]
    simp only [String.append_assoc]
  · intro llm1 llm2 d h
    unfold parse_task_description query_llm
    rw [h]
  · intro llm handlerCall h
    have hparse : parse_task_description llm (pyStrip "") = "unknown" := by
      unfold parse_task_description query_llm
      rw [show pyStrip "" = "" from rfl, h]
      decide
    have hfalse : parse_task_description llm (pyStrip "") ∉ TASK_MAP_keys := by
      rw [hparse]
      decide
    rw [run_task_unknown handlerCall llm "" hfalse, hparse]
    decide

/-- Witness for C8: with identical LLM responses the classifier agrees with
itself on the empty description, and the "unknown" response produces the
unresolved 400 outcome. -/
theorem empty_description_prompt_deterministic_unresolved_witness :
    parse_task_description (fun _ => "unknown") "" =
      parse_task_description (fun _ => "unknown") "" ∧
    run_task (fun _ => .ok "m") (fun _ => "unknown") "" =
      .httpError 400 "Unknown or unmapped task identifier: unknown" := by
  constructor
  · exact empty_description_prompt_deterministic_unresolved.2.2.1
      (fun _ => "unknown") (fun _ => "unknown") "" rfl
  · exact empty_description_prompt_deterministic_unresolved.2.2.2
      (fun _ => "unknown") (fun _ => .ok "m") rfl

/-- C9: the dispatch table's key set strictly contains the catalog the
classifier prompt advertises — every advertised key a1..a10 is dispatchable
and has its catalog line in the prompt, while b5..b10 are dispatchable
without being advertised — so a classifier response "b6" is dispatched to
its handler rather than rejected as unknown. -/
theorem dispatch_strictly_contains_advertised_catalog :
    (∀ k ∈ advertisedTaskKeys, k ∈ TASK_MAP_keys) ∧
    (∀ k ∈ (["b5", "b6", "b7", "b8", "b9", "b10"] : List String),
      k ∈ TASK_MAP_keys ∧ k ∉ advertisedTaskKeys) ∧
    (∀ k ∈ advertisedTaskKeys, ∃ u v : String,
      classifier_prompt "" = u ++ ("- " ++ k ++ ": ") ++ v) ∧
    (∀ handlerCall : String → Except String String, ∀ llm : String → String,
      ∀ task msg : String,
      parse_task_description llm (pyStrip task) = "b6" →
      handlerCall "b6" = .ok msg →
      run_task handlerCall llm task =
        .ok [("status", "success"), ("message", msg)]) := by
  refine ⟨by decide, by decide, ?_, ?_⟩
  · intro k hk
    have hp : classifier_prompt "" =
        promptIntro ++ promptLineA1 ++ promptLineA2 ++ promptLineA3 ++
          promptLineA4 ++ promptLineA5 ++ promptLineA6 ++ promptLineA7 ++
          promptLineA8 ++ promptLineA9 ++ promptLineA10 ++ promptOutro ++
          classifierPromptTail := by
      rw [classifier_prompt, classifierPromptHead, String.append_empty]
    simp only [advertisedTaskKeys, List.mem_cons, List.not_mem_nil, or_false] at hk
    rcases hk with rfl | rfl | rfl | rfl | rfl | rfl | rfl | rfl | rfl | rfl
    · refine ⟨promptIntro,
        "Run the datagen.py script to generate data files.\n" ++ promptLineA2 ++
          promptLineA3 ++ promptLineA4 ++ promptLineA5 ++ promptLineA6 ++
          promptLineA7 ++ promptLineA8 ++ promptLineA9 ++ promptLineA10 ++
          promptOutro ++ classifierPromptTail, ?_⟩
      have hline : promptLineA1 = ("- " ++ "a1" ++ ": ") ++
          "Run the datagen.py script to generate data files.\n" := rfl
      rw [hp, hline]
      simp only [String.append_assoc]
    · refine ⟨promptIntro ++ promptLineA1,
        "Format /data/format.md using Prettier.\n" ++ promptLineA3 ++
          promptLineA4 ++ promptLineA5 ++ promptLineA6 ++ promptLineA7 ++
          promptLineA8 ++ promptLineA9 ++ promptLineA10 ++
          promptOutro ++ classifierPromptTail, ?_⟩
      have hline : promptLineA2 = ("- " ++ "a2" ++ ": ") ++
          "Format /data/format.md using Prettier.\n" := rfl
      rw [hp, hline]
      simp only [String.append_assoc]
    · refine ⟨promptIntro ++ promptLineA1 ++ promptLineA2,
        "Count the number of Wednesdays in /data/dates.txt and write the number to /data/dates-wednesdays.txt.\n" ++
          promptLineA4 ++ promptLineA5 ++ promptLineA6 ++ promptLineA7 ++
          promptLineA8 ++ promptLineA9 ++ promptLineA10 ++
          promptOutro ++ classifierPromptTail, ?_⟩
      have hline : promptLineA3 = ("- " ++ "a3" ++ ": ") ++
          "Count the number of Wednesdays in /data/dates.txt and write the number to /data/dates-wednesdays.txt.\n" := rfl
      rw [hp, hline]
      simp only [String.append_assoc]
    · refine ⟨promptIntro ++ promptLineA1 ++ promptLineA2 ++ promptLineA3,
        "Sort the contacts in /data/contacts.json by last_name then first_name.\n" ++
          promptLineA5 ++ promptLineA6 ++ promptLineA7 ++
          promptLineA8 ++ promptLineA9 ++ promptLineA10 ++
          promptOutro ++ classifierPromptTail, ?_⟩
      have hline : promptLineA4 = ("- " ++ "a4" ++ ": ") ++
          "Sort the contacts in /data/contacts.json by last_name then first_name.\n" := rfl
      rw [hp, hline]
      simp only [String.append_assoc]
    · refine ⟨promptIntro ++ promptLineA1 ++ promptLineA2 ++ promptLineA3 ++
        promptLineA4,
        "Write the first line of the 10 most recent .log files in /data/logs/ to /data/logs-recent.txt.\n" ++
          promptLineA6 ++ promptLineA7 ++
          promptLineA8 ++ promptLineA9 ++ promptLineA10 ++
          promptOutro ++ classifierPromptTail, ?_⟩
      have hline : promptLineA5 = ("- " ++ "a5" ++ ": ") ++
          "Write the first line of the 10 most recent .log files in /data/logs/ to /data/logs-recent.txt.\n" := rfl
      rw [hp, hline]
      simp only [String.append_assoc]
    · refine ⟨promptIntro ++ promptLineA1 ++ promptLineA2 ++ promptLineA3 ++
        promptLineA4 ++ promptLineA5,
        "Create an index for Markdown files in /data/docs/ mapping each filename to its first H1.\n" ++
          promptLineA7 ++ promptLineA8 ++ promptLineA9 ++ promptLineA10 ++
          promptOutro ++ classifierPromptTail, ?_⟩
      have hline : promptLineA6 = ("- " ++ "a6" ++ ": ") ++
          "Create an index for Markdown files in /data/docs/ mapping each filename to its first H1.\n" := rfl
      rw [hp, hline]
      simp only [String.append_assoc]
    · refine ⟨promptIntro ++ promptLineA1 ++ promptLineA2 ++ promptLineA3 ++
        promptLineA4 ++ promptLineA5 ++ promptLineA6,
        "Extract the senderâ€™s email from /data/email.txt.\n" ++
          promptLineA8 ++ promptLineA9 ++ promptLineA10 ++
          promptOutro ++ classifierPromptTail, ?_⟩
      have hline : promptLineA7 = ("- " ++ "a7" ++ ": ") ++
          "Extract the senderâ€™s email from /data/email.txt.\n" := rfl
      rw [hp, hline]
      simp only [String.append_assoc]
    · refine ⟨promptIntro ++ promptLineA1 ++ promptLineA2 ++ promptLineA3 ++
        promptLineA4 ++ promptLineA5 ++ promptLineA6 ++ promptLineA7,
        "Extract the credit card number from /data/credit-card.png.\n" ++
          promptLineA9 ++ promptLineA10 ++
          promptOutro ++ classifierPromptTail, ?_⟩
      have hline : promptLineA8 = ("- " ++ "a8" ++ ": ") ++
          "Extract the credit card number from /data/credit-card.png.\n" := rfl
      rw [hp, hline]
      simp only [String.append_assoc]
    · refine ⟨promptIntro ++ promptLineA1 ++ promptLineA2 ++ promptLineA3 ++
        promptLineA4 ++ promptLineA5 ++ promptLineA6 ++ promptLineA7 ++
        promptLineA8,
        "Find the most similar pair of comments in /data/comments.txt.\n" ++
          promptLineA10 ++ promptOutro ++ classifierPromptTail, ?_⟩
      have hline : promptLineA9 = ("- " ++ "a9" ++ ": ") ++
          "Find the most similar pair of comments in /data/comments.txt.\n" := rfl
      rw [hp, hline]
      simp only [String.append_assoc]
    · refine ⟨promptIntro ++ promptLineA1 ++ promptLineA2 ++ promptLineA3 ++
        promptLineA4 ++ promptLineA5 ++ promptLineA6 ++ promptLineA7 ++
        promptLineA8 ++ promptLineA9,
        "Calculate total sales of \"Gold\" tickets from /data/ticket-sales.db.\n" ++
          promptOutro ++ classifierPromptTail, ?_⟩
      have hline : promptLineA10 = ("- " ++ "a10" ++ ": ") ++
          "Calculate total sales of \"Gold\" tickets from /data/ticket-sales.db.\n" := rfl
      rw [hp, hline]
      simp only [String.append_assoc]
  · intro handlerCall llm task msg hparse hcall
    have hmem : parse_task_description llm (pyStrip task) ∈ TASK_MAP_keys := by
      rw [hparse]
      decide
    refine run_task_handler_ok handlerCall llm task msg hmem ?_
    rw [hparse, hcall]

/-- Witness for C9: the classifier answer "b6" — outside the advertised
catalog — is dispatched to its handler and yields the success payload. -/
theorem dispatch_strictly_contains_advertised_catalog_witness :
    ("a3" ∈ TASK_MAP_keys ∧ "b6" ∈ TASK_MAP_keys ∧ "b6" ∉ advertisedTaskKeys) ∧
    run_task (fun _ => .ok "B6 executed: Website data scraped.")
      (fun _ => "b6") "scrape the website" =
      .ok [("status", "success"),
           ("message", "B6 executed: Website data scraped.")] := by
  constructor
  · exact ⟨dispatch_strictly_contains_advertised_catalog.1 "a3" (by decide),
      (dispatch_strictly_contains_advertised_catalog.2.1 "b6" (by decide)).1,
      (dispatch_strictly_contains_advertised_catalog.2.1 "b6" (by decide)).2⟩
  · exact dispatch_strictly_contains_advertised_catalog.2.2.2
      (fun _ => .ok "B6 executed: Website data scraped.") (fun _ => "b6")
      "scrape the website" "B6 executed: Website data scraped." rfl rfl
